import Mathlib

/-!
Shallow embedding of the phone-validator-express core (src/index.js).

Strings are modelled as Lean `String` (a wrapper around `List Char`).
Each JavaScript regular expression of `PHONE_PATTERNS` is anchored
(`^...$`) and deterministic (every optional element is decided by a
character class disjoint from what follows), so each one is compiled to
an executable Boolean recogniser over `List Char`.  JavaScript `\s` is
the class `jsSpace` below; it is used both by the cleaning step
(`replace(/[\s\-]/g,'')`) and inside the UK patterns, exactly as in the
source.
-/

/-- Character range test, the `[a-b]` regex class. -/
def between (lo hi c : Char) : Bool := decide (lo ≤ c) && decide (c ≤ hi)

/-- The regex class `\d`, i.e. `[0-9]`. -/
def isDigitCh (c : Char) : Bool := between '0' '9' c

/-- The regex class `[6-9]` (IN mobile leading digit). -/
def sixNine (c : Char) : Bool := between '6' '9' c

/-- The regex class `[2-9]` (IN landline / US leading digits). -/
def twoNine (c : Char) : Bool := between '2' '9' c

/-- The regex class `[1-9]` (UK landline area code leading digit). -/
def oneNine (c : Char) : Bool := between '1' '9' c

/-- JavaScript `\s`: whitespace characters recognised by the regex engine. -/
def jsSpace (c : Char) : Bool :=
  [' ', '\t', '\n', '\r', '\x0b', '\x0c', '\u00a0', '\u1680', '\u2028',
    '\u2029', '\u202f', '\u205f', '\u3000', '\ufeff'].contains c ||
  between '\u2000' '\u200a' c

/-- The regex class `[-. ]` (US separator). -/
def usSep (c : Char) : Bool := c == '-' || c == '.' || c == ' '

/-- IN mobile: `/^[6-9]\d{9}$/`. -/
def inMobileL : List Char → Bool
  | c :: rest => sixNine c && rest.length = 9 && rest.all isDigitCh
  | [] => false

/-- IN landline: `/^[2-9]\d{7,8}$/`. -/
def inLandlineL : List Char → Bool
  | c :: rest => twoNine c && (rest.length = 7 || rest.length = 8) && rest.all isDigitCh
  | [] => false

/-- IN with country code: `/^\+91[6-9]\d{9}$/`. -/
def inWccL : List Char → Bool
  | a :: b :: c :: rest => a == '+' && b == '9' && c == '1' && inMobileL rest
  | _ => false

/-- US mobile: `/^\(?([2-9]\d{2})\)?[-. ]?([2-9]\d{2})[-. ]?(\d{4})$/`.
Optional elements are decided greedily; this is equivalent to the regex
because `(`, `)`, `[-. ]` and `\d` are pairwise disjoint classes. -/
def usMobileL (l : List Char) : Bool :=
  let l1 := match l with | '(' :: r => r | _ => l
  match l1 with
  | a :: b :: c :: r2 =>
    if twoNine a && isDigitCh b && isDigitCh c then
      let r3 := match r2 with | ')' :: r => r | _ => r2
      let r4 := match r3 with
        | s :: r => if usSep s then r else r3
        | [] => r3
      match r4 with
      | d :: e :: f :: r5 =>
        if twoNine d && isDigitCh e && isDigitCh f then
          let r6 := match r5 with
            | s :: r => if usSep s then r else r5
            | [] => r5
          match r6 with
          | g :: h :: i :: j :: [] => isDigitCh g && isDigitCh h && isDigitCh i && isDigitCh j
          | _ => false
        else false
      | _ => false
    else false
  | _ => false

/-- US with country code: `/^\+1[2-9]\d{2}[2-9]\d{6}$/`. -/
def usWccL : List Char → Bool
  | '+' :: '1' :: a :: b :: c :: d :: rest =>
    twoNine a && isDigitCh b && isDigitCh c && twoNine d &&
    rest.length = 6 && rest.all isDigitCh
  | _ => false

/-- UK mobile: `/^(\+44\s?7\d{3}|\(?07\d{3}\)?)\s?\d{3}\s?\d{3}$/`. -/
def ukMobileL (l : List Char) : Bool :=
  let head : Option (List Char) :=
    match l with
    | '+' :: '4' :: '4' :: r =>
      let r1 := match r with
        | s :: t => if jsSpace s then t else r
        | [] => r
      match r1 with
      | '7' :: a :: b :: c :: r2 =>
        if isDigitCh a && isDigitCh b && isDigitCh c then some r2 else none
      | _ => none
    | _ =>
      let r0 := match l with | '(' :: t => t | _ => l
      match r0 with
      | '0' :: '7' :: a :: b :: c :: r2 =>
        if isDigitCh a && isDigitCh b && isDigitCh c then
          some (match r2 with | ')' :: t => t | _ => r2)
        else none
      | _ => none
  match head with
  | none => false
  | some r =>
    let r1 := match r with
      | s :: t => if jsSpace s then t else r
      | [] => r
    match r1 with
    | a :: b :: c :: r2 =>
      if isDigitCh a && isDigitCh b && isDigitCh c then
        let r3 := match r2 with
          | s :: t => if jsSpace s then t else r2
          | [] => r2
        match r3 with
        | d :: e :: f :: [] => isDigitCh d && isDigitCh e && isDigitCh f
        | _ => false
      else false
    | _ => false

/-- UK landline: `/^(\+44\s?[1-9]\d{2}|\(?0[1-9]\d{2}\)?)\s?\d{3}\s?\d{4}$/`. -/
def ukLandlineL (l : List Char) : Bool :=
  let head : Option (List Char) :=
    match l with
    | '+' :: '4' :: '4' :: r =>
      let r1 := match r with
        | s :: t => if jsSpace s then t else r
        | [] => r
      match r1 with
      | a :: b :: c :: r2 =>
        if oneNine a && isDigitCh b && isDigitCh c then some r2 else none
      | _ => none
    | _ =>
      let r0 := match l with | '(' :: t => t | _ => l
      match r0 with
      | '0' :: a :: b :: c :: r2 =>
        if oneNine a && isDigitCh b && isDigitCh c then
          some (match r2 with | ')' :: t => t | _ => r2)
        else none
      | _ => none
  match head with
  | none => false
  | some r =>
    let r1 := match r with
      | s :: t => if jsSpace s then t else r
      | [] => r
    match r1 with
    | a :: b :: c :: r2 =>
      if isDigitCh a && isDigitCh b && isDigitCh c then
        let r3 := match r2 with
          | s :: t => if jsSpace s then t else r2
          | [] => r2
        match r3 with
        | d :: e :: f :: g :: [] => isDigitCh d && isDigitCh e && isDigitCh f && isDigitCh g
        | _ => false
      else false
    | _ => false

/-- Generic international: `/^\+[1-9]\d{1,14}$/` (present in the registry,
never consulted by the validator). -/
def intlL : List Char → Bool
  | '+' :: c :: rest =>
    oneNine c && decide (1 ≤ rest.length) && decide (rest.length ≤ 14) && rest.all isDigitCh
  | _ => false

/-- String-level wrappers for the recognisers. -/
def inMobileRe (s : String) : Bool := inMobileL s.data

def inLandlineRe (s : String) : Bool := inLandlineL s.data

def inWccRe (s : String) : Bool := inWccL s.data

def usMobileRe (s : String) : Bool := usMobileL s.data

def usWccRe (s : String) : Bool := usWccL s.data

def ukMobileRe (s : String) : Bool := ukMobileL s.data

def ukLandlineRe (s : String) : Bool := ukLandlineL s.data

def intlRe (s : String) : Bool := intlL s.data

-- Sanity checks of the recognisers against the repository's documented examples.
example : inMobileRe "9876543210" = true := by decide
example : inWccRe "+919876543210" = true := by decide
example : inLandlineRe "22123456" = true := by decide
example : inLandlineRe "02212345678" = false := by decide
example : usMobileRe "(555)2345678" = true := by decide
example : usMobileRe "5552345678" = true := by decide
example : usMobileRe "555.234.5678" = true := by decide
example : usMobileRe "(5552345678" = true := by decide
example : usWccRe "+15552345678" = true := by decide
example : ukMobileRe "07123456789" = true := by decide
example : ukMobileRe "+447123456789" = true := by decide
example : ukLandlineRe "02012345678" = true := by decide
example : ukLandlineRe "+442012345678" = true := by decide
example : intlRe "+919876543210" = true := by decide

/-- Lookup of the three regex-set fields of a `PHONE_PATTERNS` entry.
`none` models an absent property (e.g. `US` has no `landline`). -/
structure PatternSet where
  mobile : Option (String → Bool)
  landline : Option (String → Bool)
  withCountryCode : Option (String → Bool)

/-- The `PHONE_PATTERNS` table of src/index.js.  The `INTERNATIONAL` key maps
in the source to a bare regex (a truthy object with none of the three
pattern properties), so its `PatternSet` has all three fields absent. -/
def PHONE_PATTERNS (country : String) : Option PatternSet :=
  match country with
  | "IN" => some ⟨some inMobileRe, some inLandlineRe, some inWccRe⟩
  | "US" => some ⟨some usMobileRe, none, some usWccRe⟩
  | "UK" => some ⟨some ukMobileRe, some ukLandlineRe, none⟩
  | "INTERNATIONAL" => some ⟨none, none, none⟩
  | _ => none

/-- `phoneNumber.replace(/[\s\-]/g, '')` — the cleaning step of
`validatePhoneNumber`. -/
def cleanStr (s : String) : String :=
  ⟨s.data.filter (fun c => !(jsSpace c || c == '-'))⟩

/-- `phoneNumber.replace(/[\s\-\(\)]/g, '')` — the depunctuation used by
`raw` rendering, the US branch of `formatPhoneNumber`, and the US
parenthesis case of `extractNationalNumber`. -/
def stripRawStr (s : String) : String :=
  ⟨s.data.filter (fun c => !(jsSpace c || c == '-' || c == '(' || c == ')'))⟩

/-- JavaScript `String.prototype.startsWith`. -/
def strStartsWith (s p : String) : Bool := List.isPrefixOf p.data s.data

/-- JavaScript `String.prototype.includes` for a single character. -/
def strContains (s : String) (c : Char) : Bool := s.data.contains c

/-- `formatPhoneNumber` of src/index.js: country-specific canonicalization
of an already-cleaned accepted number. -/
def formatPhoneNumber (phoneNumber country : String) : String :=
  match country with
  | "IN" =>
    if strStartsWith phoneNumber "+91" then phoneNumber
    else "+91" ++ phoneNumber
  | "US" =>
    if strStartsWith phoneNumber "+1" then phoneNumber
    else if strContains phoneNumber '(' && strContains phoneNumber ')' then
      "+1" ++ stripRawStr phoneNumber
    else if phoneNumber.length = 10 then "+1" ++ phoneNumber
    else phoneNumber
  | "UK" =>
    if strStartsWith phoneNumber "+44" then phoneNumber
    else if strStartsWith phoneNumber "0" then "+44" ++ ⟨phoneNumber.data.drop 1⟩
    else "+44" ++ phoneNumber
  | _ =>
    if strStartsWith phoneNumber "+" then phoneNumber
    else "+" ++ phoneNumber

/-- `extractNationalNumber` of src/index.js. -/
def extractNationalNumber (phoneNumber country : String) : String :=
  let countryCode : Option String :=
    match country with
    | "IN" => some "+91"
    | "US" => some "+1"
    | "UK" => some "+44"
    | _ => none
  match countryCode with
  | some cc =>
    if strStartsWith phoneNumber cc then ⟨phoneNumber.data.drop cc.length⟩
    else if country == "US" && strContains phoneNumber '(' && strContains phoneNumber ')' then
      stripRawStr phoneNumber
    else phoneNumber
  | none =>
    if country == "US" && strContains phoneNumber '(' && strContains phoneNumber ')' then
      stripRawStr phoneNumber
    else phoneNumber

/-- `formatPhoneNumberAuto` of src/index.js; `substring(i,j)` becomes
`take`/`drop` on the character list. -/
def formatPhoneNumberAuto (phoneNumber country : String) : String :=
  let nationalNumber := extractNationalNumber phoneNumber country
  match country with
  | "IN" => "+91 " ++ nationalNumber
  | "US" =>
    if nationalNumber.length = 10 then
      "+1 (" ++ ⟨nationalNumber.data.take 3⟩ ++ ") " ++
        ⟨(nationalNumber.data.drop 3).take 3⟩ ++ "-" ++ ⟨nationalNumber.data.drop 6⟩
    else phoneNumber
  | "UK" =>
    if nationalNumber.length = 10 then
      "+44 " ++ ⟨nationalNumber.data.take 4⟩ ++ " " ++
        ⟨(nationalNumber.data.drop 4).take 3⟩ ++ " " ++ ⟨nationalNumber.data.drop 7⟩
    else phoneNumber
  | _ => phoneNumber

/-- `formatPhoneNumberWithOptions` of src/index.js.  A missing custom
formatter is `none`; when `format = 'custom'` and no function is supplied
the source falls through its `switch`, whose `default` is the auto
formatter. -/
def formatPhoneNumberWithOptions (phoneNumber country fmt : String)
    (customFormatter : Option (String → String → String)) : String :=
  if phoneNumber = "" then phoneNumber
  else
    match fmt, customFormatter with
    | "custom", some f => f phoneNumber country
    | "international", _ => phoneNumber
    | "national", _ => extractNationalNumber phoneNumber country
    | "raw", _ => stripRawStr phoneNumber
    | _, _ => formatPhoneNumberAuto phoneNumber country

/-- A JavaScript argument that is either a string or some non-string value
(null, undefined, a number, ...).  `validatePhoneNumber` only ever
distinguishes "truthy string" from everything else. -/
inductive JSInput where
  | str (s : String)
  | nonString
deriving DecidableEq

/-- The record returned by `validatePhoneNumber`. -/
structure ValidationResult where
  isValid : Bool
  error : Option String
  formatted : Option String
  errorType : Option String
deriving DecidableEq

/-- The early-return record for missing input. -/
def requiredResult : ValidationResult :=
  ⟨false, some "Phone number is required and must be a string", none, some "required"⟩

/-- `patterns.x && patterns.x.test(cleaned)` under truthiness: an absent
pattern contributes `false` (the JS expression evaluates to `undefined`,
which is falsy and observationally equal to `false` here). -/
def testOpt (pat : Option (String → Bool)) (s : String) : Bool :=
  match pat with
  | some f => f s
  | none => false

/-- The `type`-dispatch block of `validatePhoneNumber` (lines 87-101). -/
def decideValid (patterns : PatternSet) (cleaned ty : String) : Bool :=
  if ty = "mobile" then
    testOpt patterns.mobile cleaned || testOpt patterns.withCountryCode cleaned
  else if ty = "landline" then
    testOpt patterns.landline cleaned
  else if ty = "any" then
    testOpt patterns.mobile cleaned || testOpt patterns.landline cleaned ||
      testOpt patterns.withCountryCode cleaned
  else false

/-- `validatePhoneNumber` of src/index.js. -/
def validatePhoneNumber (phoneNumber : JSInput) (country : String := "IN")
    (ty : String := "mobile") : ValidationResult :=
  match phoneNumber with
  | .nonString => requiredResult
  | .str s =>
    if s = "" then requiredResult
    else
      let cleaned := cleanStr s
      match PHONE_PATTERNS country with
      | none =>
        ⟨false, some ("Unsupported country code: " ++ country), none, some "invalidFormat"⟩
      | some patterns =>
        let ok := decideValid patterns cleaned ty
        if ok then ⟨true, none, some (formatPhoneNumber cleaned country), none⟩
        else
          ⟨false, some ("Invalid " ++ ty ++ " phone number for " ++ country), none,
            some "invalidFormat"⟩

/-- `formatPhone` of src/index.js: validate as class `any`, return the
input unchanged when invalid, otherwise render the validated number. -/
def formatPhone (phoneNumber : String) (country : String := "IN")
    (fmt : String := "auto")
    (customFormatter : Option (String → String → String) := none) : String :=
  if phoneNumber = "" then phoneNumber
  else
    let validation := validatePhoneNumber (.str phoneNumber) country "any"
    if !validation.isValid then phoneNumber
    else
      let validatedNumber :=
        match validation.formatted with
        | some f => if f = "" then phoneNumber else f
        | none => phoneNumber
      formatPhoneNumberWithOptions validatedNumber country fmt customFormatter

/-- `getSupportedCountries` of src/index.js: `Object.keys(PHONE_PATTERNS)`
in insertion order. -/
def getSupportedCountries : List String := ["IN", "US", "UK", "INTERNATIONAL"]

/-- `getFormatExamples` of src/index.js, reading the `examples` lists of
the `FORMAT_PLACEHOLDERS` table. -/
def getFormatExamples (country : String) (ty : String := "mobile") : Option (List String) :=
  match country with
  | "IN" =>
    match ty with
    | "mobile" => some ["9876543210", "+919876543210"]
    | "landline" => some ["02212345678", "+912212345678"]
    | _ => none
  | "US" =>
    match ty with
    | "mobile" => some ["(555) 234-5678", "555-234-5678", "5552345678", "+15552345678"]
    | "landline" => some ["(555) 123-4567", "555-123-4567", "5551234567", "+15551234567"]
    | _ => none
  | "UK" =>
    match ty with
    | "mobile" => some ["07123456789", "+447123456789"]
    | "landline" => some ["02012345678", "+442012345678"]
    | _ => none
  | _ => none

-- Sanity checks against the spec's concrete scenarios.
example :
    validatePhoneNumber (.str "9876543210") "IN" "mobile" =
      ⟨true, none, some "+919876543210", none⟩ := by decide
example : (validatePhoneNumber (.str "1234567890") "IN" "mobile").isValid = false := by decide
example : formatPhone "9876543210" "IN" "auto" none = "+91 9876543210" := by decide
example :
    formatPhoneNumberWithOptions "(555) 234-5678" "US" "national" none = "5552345678" := by
  decide
example :
    formatPhoneNumberWithOptions "+447123456789" "UK" "auto" none = "+44 7123 456 789" := by
  decide
example : formatPhone "1234567890" "IN" "auto" none = "1234567890" := by decide
example : formatPhone "9876543210" "IN" "international" none = "+919876543210" := by decide
example : formatPhone "9876543210" "IN" "national" none = "9876543210" := by decide

/-- C1: the format-metadata table's IN landline examples list contains
'02212345678' and '+912212345678', yet `validate` rejects both under
(IN, landline): the code contradicts its own documented examples. -/
theorem C1_in_landline_examples_rejected :
    getFormatExamples "IN" "landline" = some ["02212345678", "+912212345678"] ∧
    (validatePhoneNumber (.str "02212345678") "IN" "landline").isValid = false ∧
    (validatePhoneNumber (.str "+912212345678") "IN" "landline").isValid = false := by
  refine ⟨rfl, by decide, by decide⟩

/-- C2 counterexample: rendering in mode 'custom' with no custom formatter
does not signal an error; it produces exactly the auto-mode rendering
('+91 9876543210'), i.e. it silently falls back to auto. -/
theorem C2_custom_without_formatter_falls_back :
    formatPhoneNumberWithOptions "+919876543210" "IN" "custom" none = "+91 9876543210" ∧
    formatPhoneNumberWithOptions "+919876543210" "IN" "auto" none = "+91 9876543210" := by
  refine ⟨by decide, by decide⟩

/-- C2 amended: when mode is 'custom' and no formatter function is supplied,
the renderer silently falls back to auto-mode rendering for every input and
country (no error is raised or returned). -/
theorem C2_amended_custom_without_formatter_is_auto (p country : String) :
    formatPhoneNumberWithOptions p country "custom" none =
      formatPhoneNumberWithOptions p country "auto" none := by
  by_cases hp : p = "" <;> simp [formatPhoneNumberWithOptions, hp]

/-- C3 counterexample: '(5552345678' (one unbalanced parenthesis) validates
as a US mobile number, and the `formatted` field of the result is the input
itself, which does not even start with '+', hence is not a canonical
international form. -/
theorem C3_formatted_not_canonical :
    (validatePhoneNumber (.str "(5552345678") "US" "mobile").isValid = true ∧
    (validatePhoneNumber (.str "(5552345678") "US" "mobile").formatted =
      some "(5552345678" ∧
    strStartsWith "(5552345678" "+" = false := by
  refine ⟨by decide, by decide, by decide⟩

/-- C4 counterexample: `getSupportedCountries` contains 'INTERNATIONAL',
which is not one of the three CountryCodes {IN, US, UK}. -/
theorem C4_supported_countries_has_international :
    "INTERNATIONAL" ∈ getSupportedCountries ∧
    "INTERNATIONAL" ∉ (["IN", "US", "UK"] : List String) := by
  refine ⟨by decide, by decide⟩

/-- C4 amended: `getSupportedCountries` returns exactly the four keys of the
pattern registry in insertion order: IN, US, UK, INTERNATIONAL. -/
theorem C4_amended_supported_countries_exact :
    getSupportedCountries = ["IN", "US", "UK", "INTERNATIONAL"] := rfl

/-- C9: in mode 'auto' for UK, if the extracted national number has exactly
10 characters the result is '+44 ' ++ first4 ++ ' ' ++ next3 ++ ' ' ++ last3,
otherwise the input is returned unchanged; concretely
render('+447123456789','UK','auto') = '+44 7123 456 789'. -/
theorem C9_uk_auto_format :
    (∀ p : String,
      formatPhoneNumberWithOptions p "UK" "auto" none =
        (if (extractNationalNumber p "UK").length = 10 then
          "+44 " ++ ⟨(extractNationalNumber p "UK").data.take 4⟩ ++ " " ++
            ⟨((extractNationalNumber p "UK").data.drop 4).take 3⟩ ++ " " ++
            ⟨(extractNationalNumber p "UK").data.drop 7⟩
        else p)) ∧
    formatPhoneNumberWithOptions "+447123456789" "UK" "auto" none = "+44 7123 456 789" := by
  refine ⟨fun p => ?_, by decide⟩
  by_cases hp : p = ""
  · subst hp; decide
  · simp only [formatPhoneNumberWithOptions, if_neg hp]
    rfl

/-- C10 counterexample: for the empty string (a string input) with the
registered country IN and the unrecognized class 'Mobile', the result has
errorType 'required', not 'invalidFormat', and its error message is the
missing-input message, not 'Invalid Mobile phone number for IN'. -/
theorem C10_empty_string_gives_required :
    (validatePhoneNumber (.str "") "IN" "Mobile").errorType = some "required" ∧
    (validatePhoneNumber (.str "") "IN" "Mobile").error ≠
      some "Invalid Mobile phone number for IN" := by
  refine ⟨by decide, by decide⟩

/-- Every result of `validatePhoneNumber` has one of the two documented
shapes: accepted (error and errorType null, formatted present) or rejected
(a message present, formatted null, errorType 'required' or
'invalidFormat'). -/
theorem validate_shape (input : JSInput) (country ty : String) :
    ((validatePhoneNumber input country ty).isValid = true ∧
      (validatePhoneNumber input country ty).error = none ∧
      (∃ c, (validatePhoneNumber input country ty).formatted = some c) ∧
      (validatePhoneNumber input country ty).errorType = none) ∨
    ((validatePhoneNumber input country ty).isValid = false ∧
      (∃ m, (validatePhoneNumber input country ty).error = some m) ∧
      (validatePhoneNumber input country ty).formatted = none ∧
      ((validatePhoneNumber input country ty).errorType = some "required" ∨
        (validatePhoneNumber input country ty).errorType = some "invalidFormat")) := by
  cases input with
  | nonString => exact .inr ⟨rfl, ⟨_, rfl⟩, rfl, .inl rfl⟩
  | str s =>
    by_cases hs : s = ""
    · subst hs; exact .inr ⟨rfl, ⟨_, rfl⟩, rfl, .inl rfl⟩
    · cases hp : PHONE_PATTERNS country with
      | none =>
        have hres : validatePhoneNumber (.str s) country ty =
            ⟨false, some ("Unsupported country code: " ++ country), none,
              some "invalidFormat"⟩ := by
          simp [validatePhoneNumber, hs, hp]
        rw [hres]; exact .inr ⟨rfl, ⟨_, rfl⟩, rfl, .inr rfl⟩
      | some ps =>
        cases hok : decideValid ps (cleanStr s) ty with
        | false =>
          have hres : validatePhoneNumber (.str s) country ty =
              ⟨false, some ("Invalid " ++ ty ++ " phone number for " ++ country), none,
                some "invalidFormat"⟩ := by
            simp [validatePhoneNumber, hs, hp, hok]
          rw [hres]; exact .inr ⟨rfl, ⟨_, rfl⟩, rfl, .inr rfl⟩
        | true =>
          have hres : validatePhoneNumber (.str s) country ty =
              ⟨true, none, some (formatPhoneNumber (cleanStr s) country), none⟩ := by
            simp [validatePhoneNumber, hs, hp, hok]
          rw [hres]; exact .inl ⟨rfl, rfl, ⟨_, rfl⟩, rfl⟩

/-- If a string input validates, the input is non-empty, the patterns for
its country exist, the class test accepted the cleaned input, and the
result is the accepted record built from the canonicalizer. -/
theorem validate_valid_inv {s country ty : String}
    (h : (validatePhoneNumber (.str s) country ty).isValid = true) :
    s ≠ "" ∧ ∃ ps, PHONE_PATTERNS country = some ps ∧
      decideValid ps (cleanStr s) ty = true ∧
      validatePhoneNumber (.str s) country ty =
        ⟨true, none, some (formatPhoneNumber (cleanStr s) country), none⟩ := by
  by_cases hs : s = ""
  · subst hs; simp [validatePhoneNumber, requiredResult] at h
  · refine ⟨hs, ?_⟩
    cases hp : PHONE_PATTERNS country with
    | none =>
      have hres : validatePhoneNumber (.str s) country ty =
          ⟨false, some ("Unsupported country code: " ++ country), none,
            some "invalidFormat"⟩ := by
        simp [validatePhoneNumber, hs, hp]
      rw [hres] at h; simp at h
    | some ps =>
      cases hok : decideValid ps (cleanStr s) ty with
      | false =>
        have hres : validatePhoneNumber (.str s) country ty =
            ⟨false, some ("Invalid " ++ ty ++ " phone number for " ++ country), none,
              some "invalidFormat"⟩ := by
          simp [validatePhoneNumber, hs, hp, hok]
        rw [hres] at h; simp at h
      | true =>
        have hres : validatePhoneNumber (.str s) country ty =
            ⟨true, none, some (formatPhoneNumber (cleanStr s) country), none⟩ := by
          simp [validatePhoneNumber, hs, hp, hok]
        exact ⟨ps, rfl, hok, hres⟩

/-- C3 amended: for every input, `isValid = true` iff `error = null` and
`formatted` is non-null, and `errorType` is null exactly when `isValid`
is true; the canonical-form requirement on `formatted` does not hold (see
the counterexample). -/
theorem C3_amended_validity_invariant (input : JSInput) (country ty : String) :
    ((validatePhoneNumber input country ty).isValid = true ↔
      ((validatePhoneNumber input country ty).error = none ∧
        (validatePhoneNumber input country ty).formatted.isSome = true)) ∧
    ((validatePhoneNumber input country ty).errorType = none ↔
      (validatePhoneNumber input country ty).isValid = true) := by
  rcases validate_shape input country ty with ⟨h1, h2, ⟨c, h3⟩, h4⟩ | ⟨h1, ⟨m, h2⟩, h3, h4⟩
  · rw [h1, h2, h3, h4]; simp
  · rw [h1, h2, h3]
    rcases h4 with h4 | h4 <;> rw [h4] <;> simp

/-- C5: `validatePhoneNumber` is total on the whole input space (strings,
including empty and whitespace-only, and non-string values such as null)
and every result is a well-formed ValidationResult: either the accepted
shape or the rejected shape with errorType 'required' or 'invalidFormat'.
In the embedding no case is missing, so no input can raise. -/
theorem C5_validate_total_wellformed (input : JSInput) (country ty : String) :
    ((validatePhoneNumber input country ty).isValid = true ∧
      (validatePhoneNumber input country ty).error = none ∧
      (∃ c, (validatePhoneNumber input country ty).formatted = some c) ∧
      (validatePhoneNumber input country ty).errorType = none) ∨
    ((validatePhoneNumber input country ty).isValid = false ∧
      (∃ m, (validatePhoneNumber input country ty).error = some m) ∧
      (validatePhoneNumber input country ty).formatted = none ∧
      ((validatePhoneNumber input country ty).errorType = some "required" ∨
        (validatePhoneNumber input country ty).errorType = some "invalidFormat")) :=
  validate_shape input country ty

/-- C6: for every non-empty string and every class, a country code with no
entry in the pattern registry yields exactly the unsupported-country
rejection record. -/
theorem C6_unsupported_country (s country ty : String) (hs : s ≠ "")
    (hc : PHONE_PATTERNS country = none) :
    validatePhoneNumber (.str s) country ty =
      ⟨false, some ("Unsupported country code: " ++ country), none,
        some "invalidFormat"⟩ := by
  simp [validatePhoneNumber, hs, hc]

/-- C6 witness: the unregistered code 'XX' at a concrete non-empty input. -/
theorem C6_unsupported_country_witness :
    validatePhoneNumber (.str "5551234567") "XX" "mobile" =
      ⟨false, some "Unsupported country code: XX", none, some "invalidFormat"⟩ :=
  C6_unsupported_country "5551234567" "XX" "mobile" (by decide) rfl

/-- C10 amended: for every non-empty string input and registered country, a
class outside {mobile, landline, any} yields exactly the invalid-format
record with message 'Invalid <class> phone number for <country>'; for the
empty string the required check fires first instead. -/
theorem C10_amended_unknown_class_rejects (s country ty : String) (hs : s ≠ "")
    (hc : (PHONE_PATTERNS country).isSome = true) (h1 : ty ≠ "mobile")
    (h2 : ty ≠ "landline") (h3 : ty ≠ "any") :
    validatePhoneNumber (.str s) country ty =
      ⟨false, some ("Invalid " ++ ty ++ " phone number for " ++ country), none,
        some "invalidFormat"⟩ := by
  obtain ⟨ps, hp⟩ := Option.isSome_iff_exists.mp hc
  have hdv : decideValid ps (cleanStr s) ty = false := by
    simp [decideValid, h1, h2, h3]
  simp [validatePhoneNumber, hs, hp, hdv]

/-- C10 witness: the unrecognized class 'Mobile' at a concrete input. -/
theorem C10_amended_unknown_class_witness :
    validatePhoneNumber (.str "9876543210") "IN" "Mobile" =
      ⟨false, some "Invalid Mobile phone number for IN", none, some "invalidFormat"⟩ :=
  C10_amended_unknown_class_rejects "9876543210" "IN" "Mobile" (by decide) rfl
    (by decide) (by decide) (by decide)

/-- Appending to a non-empty string yields a non-empty string. -/
theorem append_ne_empty (a b : String) (h : a.data ≠ []) : a ++ b ≠ "" := by
  intro he
  apply h
  have hd := congrArg String.data he
  rw [String.data_append] at hd
  exact (List.append_eq_nil.mp hd).1

/-- Every pattern of every registry entry rejects the empty string, so the
class dispatch on an empty cleaned input always answers false. -/
theorem patterns_reject_empty (country : String) (ps : PatternSet) (ty : String)
    (hp : PHONE_PATTERNS country = some ps) : decideValid ps "" ty = false := by
  unfold PHONE_PATTERNS at hp
  split at hp
  all_goals first
    | (injection hp with h; subst h; unfold decideValid; split_ifs <;> decide)
    | exact Option.noConfusion hp

/-- The canonicalizer never turns a non-empty cleaned number into the
empty string, whatever the country. -/
theorem formatPhoneNumber_ne_empty (s country : String) (hs : s ≠ "") :
    formatPhoneNumber s country ≠ "" := by
  unfold formatPhoneNumber
  split <;> split_ifs <;> first | exact hs | (apply append_ne_empty; decide)

/-- C8: `formatPhone` validates under class 'any'; on an invalid input it
returns the input unchanged, and on a valid input it renders the validated
canonical form under the requested mode and formatter. -/
theorem C8_formatPhone_contract (raw country mode : String)
    (f : Option (String → String → String)) :
    ((validatePhoneNumber (.str raw) country "any").isValid = false →
      formatPhone raw country mode f = raw) ∧
    ((validatePhoneNumber (.str raw) country "any").isValid = true →
      ∃ c, (validatePhoneNumber (.str raw) country "any").formatted = some c ∧
        formatPhone raw country mode f = formatPhoneNumberWithOptions c country mode f) := by
  constructor
  · intro h
    by_cases hr : raw = ""
    · simp [formatPhone, hr]
    · simp [formatPhone, hr, h]
  · intro h
    obtain ⟨hr, ps, hp, hok, hres⟩ := validate_valid_inv h
    have hcl : cleanStr raw ≠ "" := by
      intro he
      rw [he, patterns_reject_empty country ps "any" hp] at hok
      exact Bool.noConfusion hok
    have hfmt : formatPhoneNumber (cleanStr raw) country ≠ "" :=
      formatPhoneNumber_ne_empty _ _ hcl
    refine ⟨formatPhoneNumber (cleanStr raw) country, by rw [hres], ?_⟩
    simp only [formatPhone, if_neg hr, hres]
    simp [hfmt]

/-- C8 witness: the spec's concrete scenario — '1234567890' fails IN/any
validation and `formatPhone` returns it unchanged. -/
theorem C8_formatPhone_witness :
    formatPhone "1234567890" "IN" "auto" none = "1234567890" :=
  (C8_formatPhone_contract "1234567890" "IN" "auto" none).1 (by decide)

/-- A character in `[0-9]` bounds. -/
theorem digit_bounds {c : Char} (h : isDigitCh c = true) : '0' ≤ c ∧ c ≤ '9' := by
  simpa [isDigitCh, between] using h

/-- A character in `[6-9]` is a digit. -/
theorem sixNine_digit {c : Char} (h : sixNine c = true) : isDigitCh c = true := by
  simp only [sixNine, between, Bool.and_eq_true, decide_eq_true_eq] at h
  simp only [isDigitCh, between, Bool.and_eq_true, decide_eq_true_eq]
  exact ⟨Char.le_trans (by decide) h.1, h.2⟩

/-- No digit is a JavaScript whitespace character. -/
theorem jsSpace_false_of_digit {c : Char} (h : isDigitCh c = true) : jsSpace c = false := by
  obtain ⟨h0, h9⟩ := digit_bounds h
  cases hc : jsSpace c
  · rfl
  · exfalso
    simp only [jsSpace, Bool.or_eq_true, between, Bool.and_eq_true, decide_eq_true_eq] at hc
    rcases hc with hm | ⟨ha, _⟩
    · have hm2 : c ∈ [' ', '\t', '\n', '\r', '\x0b', '\x0c', ' ', ' ',
          ' ', ' ', ' ', ' ', '　', '﻿'] := by simpa using hm
      fin_cases hm2 <;>
        first | exact absurd h0 (by decide) | exact absurd h9 (by decide)
    · exact absurd (Char.le_trans ha h9) (by decide)

/-- Digits survive the `[\s\-]` cleaning filter. -/
theorem keepClean_digit {c : Char} (h : isDigitCh c = true) :
    (!(jsSpace c || c == '-')) = true := by
  obtain ⟨h0, _⟩ := digit_bounds h
  have h1 : (c == '-') = false :=
    beq_eq_false_iff_ne.mpr (fun he => by subst he; exact absurd h0 (by decide))
  rw [jsSpace_false_of_digit h, h1]
  rfl

/-- Digits survive the `[\s\-\(\)]` depunctuation filter. -/
theorem keepRaw_digit {c : Char} (h : isDigitCh c = true) :
    (!(jsSpace c || c == '-' || c == '(' || c == ')')) = true := by
  obtain ⟨h0, _⟩ := digit_bounds h
  have h1 : (c == '-') = false :=
    beq_eq_false_iff_ne.mpr (fun he => by subst he; exact absurd h0 (by decide))
  have h2 : (c == '(') = false :=
    beq_eq_false_iff_ne.mpr (fun he => by subst he; exact absurd h0 (by decide))
  have h3 : (c == ')') = false :=
    beq_eq_false_iff_ne.mpr (fun he => by subst he; exact absurd h0 (by decide))
  rw [jsSpace_false_of_digit h, h1, h2, h3]
  rfl

/-- The cleaning filter keeps a `+91`-prefixed digit string intact. -/
theorem filter_clean_plus91 {l : List Char} (hl : l.all isDigitCh = true) :
    ('+' :: '9' :: '1' :: l).filter (fun c => !(jsSpace c || c == '-')) =
      '+' :: '9' :: '1' :: l := by
  apply List.filter_eq_self.mpr
  intro a ha
  simp only [List.mem_cons] at ha
  rcases ha with rfl | rfl | rfl | ha
  · decide
  · decide
  · decide
  · exact keepClean_digit (List.all_eq_true.mp hl a ha)

/-- The depunctuation filter keeps a `+91`-prefixed digit string intact. -/
theorem filter_raw_plus91 {l : List Char} (hl : l.all isDigitCh = true) :
    ('+' :: '9' :: '1' :: l).filter
        (fun c => !(jsSpace c || c == '-' || c == '(' || c == ')')) =
      '+' :: '9' :: '1' :: l := by
  apply List.filter_eq_self.mpr
  intro a ha
  simp only [List.mem_cons] at ha
  rcases ha with rfl | rfl | rfl | ha
  · decide
  · decide
  · decide
  · exact keepRaw_digit (List.all_eq_true.mp hl a ha)

/-- A string whose characters are `+91` followed by digits is untouched by
the cleaning step. -/
theorem cleanStr_plus91 {s : String} {l : List Char}
    (hd : s.data = '+' :: '9' :: '1' :: l) (hl : l.all isDigitCh = true) :
    cleanStr s = s := by
  apply String.ext
  show s.data.filter (fun c => !(jsSpace c || c == '-')) = s.data
  rw [hd]
  exact filter_clean_plus91 hl

/-- A string whose characters are `+91` followed by digits is untouched by
raw depunctuation. -/
theorem stripRawStr_plus91 {s : String} {l : List Char}
    (hd : s.data = '+' :: '9' :: '1' :: l) (hl : l.all isDigitCh = true) :
    stripRawStr s = s := by
  apply String.ext
  show s.data.filter (fun c => !(jsSpace c || c == '-' || c == '(' || c == ')')) = s.data
  rw [hd]
  exact filter_raw_plus91 hl

/-- A string with a cons character list is non-empty. -/
theorem ne_empty_of_data_eq {s : String} {a : Char} {l : List Char}
    (hd : s.data = a :: l) : s ≠ "" := by
  intro he
  rw [he] at hd
  exact List.noConfusion hd

/-- Inversion of the IN mobile recogniser. -/
theorem inMobileL_inv {l : List Char} (h : inMobileL l = true) :
    ∃ c rest, l = c :: rest ∧ sixNine c = true ∧ rest.length = 9 ∧
      rest.all isDigitCh = true := by
  cases l with
  | nil => exact absurd h (by decide)
  | cons c rest =>
    simp only [inMobileL, Bool.and_eq_true, decide_eq_true_eq] at h
    exact ⟨c, rest, rfl, h.1.1, h.1.2, h.2⟩

/-- Inversion of the IN with-country-code recogniser. -/
theorem inWccL_inv {l : List Char} (h : inWccL l = true) :
    ∃ rest, l = '+' :: '9' :: '1' :: rest ∧ inMobileL rest = true := by
  cases l with
  | nil => simp [inWccL] at h
  | cons a l1 =>
    cases l1 with
    | nil => simp [inWccL] at h
    | cons b l2 =>
      cases l2 with
      | nil => simp [inWccL] at h
      | cons c rest =>
        simp only [inWccL, Bool.and_eq_true, beq_iff_eq] at h
        obtain ⟨⟨⟨rfl, rfl⟩, rfl⟩, hm⟩ := h
        exact ⟨rest, rfl, hm⟩

/-- The IN with-country-code recogniser on a `+91`-prefixed list is the
mobile recogniser on the remainder. -/
theorem inWccL_cons (l : List Char) : inWccL ('+' :: '9' :: '1' :: l) = inMobileL l := by
  simp [inWccL]

/-- `+91` is not a prefix of a list starting with a `[6-9]` digit. -/
theorem isPrefixOf_plus91_false {c0 : Char} (rest : List Char) (h : sixNine c0 = true) :
    List.isPrefixOf ['+', '9', '1'] (c0 :: rest) = false := by
  have hne : ('+' == c0) = false := by
    refine beq_eq_false_iff_ne.mpr (fun he => ?_)
    rw [← he] at h
    exact absurd h (by decide)
  simp [List.isPrefixOf, hne]

/-- Any string whose characters satisfy the IN with-country-code grammar
validates as an IN mobile number. -/
theorem validate_IN_mobile_of_wcc {s : String} (hw : inWccL s.data = true) :
    (validatePhoneNumber (.str s) "IN" "mobile").isValid = true := by
  obtain ⟨rest, hd, hm⟩ := inWccL_inv hw
  obtain ⟨c0, r2, hr, h69, _, hdig⟩ := inMobileL_inv hm
  have hall : rest.all isDigitCh = true := by
    rw [hr]
    simp [sixNine_digit h69, hdig]
  have hs : s ≠ "" := ne_empty_of_data_eq hd
  have hcl : cleanStr s = s := cleanStr_plus91 hd hall
  have hp : PHONE_PATTERNS "IN" =
      some ⟨some inMobileRe, some inLandlineRe, some inWccRe⟩ := rfl
  have hok : decideValid ⟨some inMobileRe, some inLandlineRe, some inWccRe⟩
      (cleanStr s) "mobile" = true := by
    simp [decideValid, testOpt, hcl, inWccRe, hw]
  have hres : validatePhoneNumber (.str s) "IN" "mobile" =
      ⟨true, none, some (formatPhoneNumber (cleanStr s) "IN"), none⟩ := by
    simp [validatePhoneNumber, hs, hp, hok]
  rw [hres]

/-- C7 counterexample: '22123456' validates as IN landline with canonical
form '+9122123456'; raw rendering leaves that canonical form unchanged,
yet re-validating it under the same (IN, landline) pair fails, because no
IN grammar accepts a '+91'-prefixed landline number. -/
theorem C7_raw_roundtrip_fails_IN_landline :
    (validatePhoneNumber (.str "22123456") "IN" "landline").isValid = true ∧
    (validatePhoneNumber (.str "22123456") "IN" "landline").formatted =
      some "+9122123456" ∧
    formatPhoneNumberWithOptions "+9122123456" "IN" "raw" none = "+9122123456" ∧
    (validatePhoneNumber (.str "+9122123456") "IN" "landline").isValid = false := by
  refine ⟨by decide, by decide, by decide, by decide⟩

/-- C7 amended: the raw-rendering round-trip does hold for the IN mobile
class: whenever a raw input validates as (IN, mobile) with canonical form
c, rendering c in mode 'raw' and re-validating under (IN, mobile) succeeds.
It fails for other pairs (see the counterexample). -/
theorem C7_amended_raw_roundtrip_IN_mobile (raw c : String)
    (h : (validatePhoneNumber (.str raw) "IN" "mobile").isValid = true)
    (hf : (validatePhoneNumber (.str raw) "IN" "mobile").formatted = some c) :
    (validatePhoneNumber
      (.str (formatPhoneNumberWithOptions c "IN" "raw" none)) "IN" "mobile").isValid
      = true := by
  obtain ⟨hr, ps, hp, hok, hres⟩ := validate_valid_inv h
  have hp' : some (⟨some inMobileRe, some inLandlineRe, some inWccRe⟩ : PatternSet) =
      some ps := hp
  have hps := (Option.some.inj hp').symm
  subst hps
  rw [hres] at hf
  have hc : c = formatPhoneNumber (cleanStr raw) "IN" := (Option.some.inj hf).symm
  subst hc
  simp [decideValid, testOpt] at hok
  rcases hok with hA | hB
  · simp only [inMobileRe] at hA
    obtain ⟨c0, rest, hd, h69, hlen, hdig⟩ := inMobileL_inv hA
    have hnp : strStartsWith (cleanStr raw) "+91" = false := by
      simp only [strStartsWith]
      rw [hd]
      exact isPrefixOf_plus91_false rest h69
    have hfmt : formatPhoneNumber (cleanStr raw) "IN" = "+91" ++ cleanStr raw := by
      simp [formatPhoneNumber, hnp]
    have hall : (c0 :: rest).all isDigitCh = true := by
      simp [sixNine_digit h69, hdig]
    have hcd : ("+91" ++ cleanStr raw).data = '+' :: '9' :: '1' :: (c0 :: rest) := by
      rw [String.data_append, hd]
      rfl
    have hne : ("+91" ++ cleanStr raw) ≠ "" := ne_empty_of_data_eq hcd
    have hstrip : stripRawStr ("+91" ++ cleanStr raw) = "+91" ++ cleanStr raw :=
      stripRawStr_plus91 hcd hall
    have hrender : formatPhoneNumberWithOptions ("+91" ++ cleanStr raw) "IN" "raw" none
        = "+91" ++ cleanStr raw := by
      simp [formatPhoneNumberWithOptions, hne, hstrip]
    rw [hfmt, hrender]
    apply validate_IN_mobile_of_wcc
    rw [hcd, inWccL_cons, ← hd]
    exact hA
  · simp only [inWccRe] at hB
    obtain ⟨rest, hd, hm⟩ := inWccL_inv hB
    obtain ⟨c0, r2, hr, h69, _, hdig⟩ := inMobileL_inv hm
    have hall : rest.all isDigitCh = true := by
      rw [hr]
      simp [sixNine_digit h69, hdig]
    have hsw : strStartsWith (cleanStr raw) "+91" = true := by
      simp only [strStartsWith]
      rw [hd]
      simp [List.isPrefixOf]
    have hfmt : formatPhoneNumber (cleanStr raw) "IN" = cleanStr raw := by
      simp [formatPhoneNumber, hsw]
    have hne : cleanStr raw ≠ "" := ne_empty_of_data_eq hd
    have hstrip : stripRawStr (cleanStr raw) = cleanStr raw := stripRawStr_plus91 hd hall
    have hrender : formatPhoneNumberWithOptions (cleanStr raw) "IN" "raw" none
        = cleanStr raw := by
      simp [formatPhoneNumberWithOptions, hne, hstrip]
    rw [hfmt, hrender]
    exact validate_IN_mobile_of_wcc hB

/-- C7 witness: the concrete IN mobile round-trip at '9876543210'. -/
theorem C7_amended_raw_roundtrip_witness :
    (validatePhoneNumber (.str "9876543210") "IN" "mobile").isValid = true ∧
    (validatePhoneNumber
      (.str (formatPhoneNumberWithOptions "+919876543210" "IN" "raw" none)) "IN"
      "mobile").isValid = true :=
  ⟨by decide, C7_amended_raw_roundtrip_IN_mobile "9876543210" "+919876543210"
    (by decide) (by decide)⟩
